import Mathlib

/-!
Verification of the fog-node motion-detection engine
(`src/fog_node/fog_node.py`) against its specification.

The Python code is shallowly embedded: image-level processing (grayscale,
blur, absdiff, threshold, dilation, contour extraction) is abstracted into
the per-frame observations it yields — the list of contour areas and the
mean pixel difference — and everything downstream of those observations
(score factors, confidence, gating, the burst-verification control flow,
the streak counter and the trigger loop) is translated function for
function.  Python floats are modelled as exact rationals `ℚ`.
-/

namespace FogNode

/-! ### Configuration constants (fog_node.py lines 27-39) -/

def MIN_MOTION_FRAMES : ℕ := 3
def MOTION_THRESHOLD : ℚ := 25
def MIN_CONTOUR_AREA : ℚ := 500
def MAX_CONTOUR_AREA : ℚ := 200000
def CONFIDENCE_THRESHOLD : ℚ := 3/5
def FRAME_BUFFER_SIZE : ℕ := 5
def COOLDOWN_PERIOD : ℚ := 5
def REFERENCE_FRAMES_COUNT : ℕ := 5
def ANALYSIS_FRAMES_COUNT : ℕ := 15

/-! ### Contour filtering (fog_node.py lines 109-113 and 265-269)

Both the continuous detector and the burst verifier keep a contour only
when `MIN_CONTOUR_AREA < area < MAX_CONTOUR_AREA`; a contour is modelled
by its area (the only attribute the code uses). -/

def significantAreas (areas : List ℚ) : List ℚ :=
  areas.filter (fun a => decide (MIN_CONTOUR_AREA < a ∧ a < MAX_CONTOUR_AREA))

/-! ### Continuous-mode score factors (fog_node.py lines 116-143)

`MotionDetector.analyze_frame`: four weighted factors.  `nsig` is the
number of surviving background-difference contours, `total` their summed
area, `nf` the raw frame-difference contour count, `nb` the raw
background-difference contour count, `d` the mean of the absolute
background difference. -/

def contourScore (nsig : ℕ) : ℚ := min ((nsig : ℚ) / 3) 1

def areaScore (total : ℚ) : ℚ := if 0 < total then min (total / 50000) 1 else 0

def consistencyScore (nf nb : ℕ) : ℚ := min ((nf : ℚ) / (max nb 1 : ℕ)) 1

def diffScore (d : ℚ) : ℚ := min (d / 50) 1

/-- Combined continuous-mode confidence (weights 0.3 / 0.25 / 0.25 / 0.2,
fog_node.py lines 119-142).  `bgAreas` is the full list of
background-difference contour areas (so `nb = bgAreas.length` and the
significant ones are filtered from it, as in the code). -/
def continuousConfidence (bgAreas : List ℚ) (nf : ℕ) (d : ℚ) : ℚ :=
  contourScore (significantAreas bgAreas).length * (3/10)
    + areaScore (significantAreas bgAreas).sum * (1/4)
    + consistencyScore nf bgAreas.length * (1/4)
    + diffScore d * (1/5)

/-- Per-frame motion judgment of continuous mode (fog_node.py lines
146-150): the three gates taken verbatim from the code. -/
def hasMotion (bgAreas : List ℚ) (nf : ℕ) (d : ℚ) : Bool :=
  decide (CONFIDENCE_THRESHOLD ≤ continuousConfidence bgAreas nf d)
    && decide (0 < (significantAreas bgAreas).length)
    && decide (MIN_CONTOUR_AREA < (significantAreas bgAreas).sum)

/-! ### Burst-mode per-frame score (fog_node.py lines 271-281) -/

/-- Burst-verification per-frame score: 0 when no significant contour
survives, otherwise `area*0.4 + diff*0.3 + contours*0.3`. -/
def burstFrameScore (areas : List ℚ) (d : ℚ) : ℚ :=
  if 0 < (significantAreas areas).length then
    min ((significantAreas areas).sum / 50000) 1 * (2/5)
      + min (d / 50) 1 * (3/10)
      + min (((significantAreas areas).length : ℚ) / 3) 1 * (3/10)
  else 0

/-! ### Burst verification (`verify_motion_with_camera`, fog_node.py lines 187-359)

The camera and image pipeline are abstracted into per-frame observations:
a successful `cap.read()` of analysis frame yields the list of contour
areas found in the thresholded difference against the adaptive reference
and the mean of that difference; a failed read (`ret == False`) yields
nothing and the loop `continue`s.  An unexpected Python exception is
modelled by the point of the control flow at which it fires. -/

/-- Observations extracted from one analysis frame (fog_node.py lines
260-273): contour areas of the difference mask and mean difference. -/
structure FrameObs where
  areas : List ℚ
  meanDiff : ℚ
deriving DecidableEq

/-- Where an unexpected exception fires inside the `try` block of
`verify_motion_with_camera` (all later points are relative to the
`cap.release()` on line 305). -/
inductive ExnPoint where
  | atOpen
  | duringRef
  | duringAnalysis
  | afterRelease
deriving DecidableEq

/-- Fields of the `debug_summary` dict (fog_node.py lines 323-332); the
Python code rounds the rationals to 3 decimals for display only, which is
omitted here.  The two fixed configuration fields and the duration string
are constants and are not repeated. -/
structure DebugSummary where
  total_frames : ℕ
  frames_with_motion : ℕ
  max_confidence : ℚ
  avg_confidence : ℚ
  median_confidence : ℚ
deriving DecidableEq

/-- The fourth component returned by `verify_motion_with_camera`: either a
human-readable diagnostic string (lines 197, 203, 220), the
`f"Error: ..."` string of the exception handler (line 359), or the JSON
summary of a completed analysis (line 353). -/
inductive DebugInfo where
  | diagnostic : String → DebugInfo
  | errorMsg : String → DebugInfo
  | summary : DebugSummary → DebugInfo
deriving DecidableEq

/-- Inputs determining one run of `verify_motion_with_camera`. -/
structure VerifyInput where
  cv2Available : Bool
  opens : Bool
  refReadOk : List Bool
  analysisFrames : List (Option FrameObs)
  exn : Option (ExnPoint × String)
  encodeOk : Bool

/-- Result of a run; `image` holds the index of the encoded best frame.
`opened`/`released` record whether the capture handle was opened
(`cap.isOpened()`) and whether `cap.release()` ran before returning. -/
structure VerifyResult where
  is_real : Bool
  confidence : ℚ
  image : Option ℕ
  info : DebugInfo
  opened : Bool
  released : Bool
deriving DecidableEq

def exnPointIs (e : Option (ExnPoint × String)) (p : ExnPoint) : Bool :=
  match e with
  | some (q, _) => decide (q = p)
  | none => false

def exnMsg (e : Option (ExnPoint × String)) : String :=
  match e with
  | some (_, m) => m
  | none => ""

/-- Return value of the `except` handler (fog_node.py lines 355-359). -/
def exnResult (m : String) (opened released : Bool) : VerifyResult :=
  ⟨false, 0, none, .errorMsg m, opened, released⟩

/-- Running state of the analysis loop (fog_node.py lines 236-298):
`motion_scores`, `max_confidence`, `frames_with_motion`, `best_frame`. -/
structure AnalysisAcc where
  scores : List ℚ
  maxC : ℚ
  fwm : ℕ
  best : Option ℕ
deriving DecidableEq

def analysisInit : AnalysisAcc := ⟨[], 0, 0, none⟩

/-- One iteration of the analysis loop at index `idx`: a failed read is
skipped (lines 243-245); otherwise the frame is scored, counted when the
score reaches the threshold (lines 286-287) and kept as best frame when
it strictly beats the maximum (lines 296-298). -/
def analysisStep (idx : ℕ) (acc : AnalysisAcc) (obs : Option FrameObs) : AnalysisAcc :=
  match obs with
  | none => acc
  | some o =>
    let s := burstFrameScore o.areas o.meanDiff
    { scores := acc.scores ++ [s]
      fwm := if CONFIDENCE_THRESHOLD ≤ s then acc.fwm + 1 else acc.fwm
      maxC := if acc.maxC < s then s else acc.maxC
      best := if acc.maxC < s then some idx else acc.best }

def runAnalysis : ℕ → AnalysisAcc → List (Option FrameObs) → AnalysisAcc
  | _, acc, [] => acc
  | i, acc, obs :: rest => runAnalysis (i + 1) (analysisStep i acc obs) rest

/-- Number of reference frames successfully captured (fog_node.py lines
210-216: 5 reads, `ret == True` appends). -/
def refCaptured (inp : VerifyInput) : ℕ :=
  ((inp.refReadOk.take REFERENCE_FRAMES_COUNT).filter id).length

/-- `avg_confidence` (fog_node.py line 310). -/
def listAvg (S : List ℚ) : ℚ := if S.length = 0 then 0 else S.sum / S.length

def insertSorted (x : ℚ) : List ℚ → List ℚ
  | [] => [x]
  | y :: l => if x ≤ y then x :: y :: l else y :: insertSorted x l

def sortScores (l : List ℚ) : List ℚ := l.foldr insertSorted []

/-- `median_confidence` (fog_node.py lines 313-314). -/
def listMedian (S : List ℚ) : ℚ := (sortScores S).getD (S.length / 2) 0

/-- Full control flow of `verify_motion_with_camera` (fog_node.py lines
187-359).  The reference blend and grayscale preprocessing (lines 222-231)
only feed the abstracted per-frame observations; the blend itself is
modelled separately by `blendFold`. -/
def verifyModel (inp : VerifyInput) : VerifyResult :=
  if !inp.cv2Available then
    -- lines 193-197: without OpenCV, trust the PIR; `capture_image`
    -- immediately returns None when CV2_AVAILABLE is false (line 364)
    ⟨true, 1, none, .diagnostic "OpenCV not available", false, false⟩
  else if exnPointIs inp.exn .atOpen then
    exnResult (exnMsg inp.exn) false false
  else if !inp.opens then
    -- lines 201-203
    ⟨true, 1, none, .diagnostic "Camera unavailable", false, false⟩
  else if exnPointIs inp.exn .duringRef then
    -- an exception in the reference phase reaches the handler with the
    -- opened handle never released
    exnResult (exnMsg inp.exn) true false
  else if refCaptured inp < 2 then
    -- lines 218-220: early return, after cap.release()
    ⟨true, 1, none, .diagnostic "Not enough reference frames", true, true⟩
  else if exnPointIs inp.exn .duringAnalysis then
    exnResult (exnMsg inp.exn) true false
  else
    let A := runAnalysis 0 analysisInit (inp.analysisFrames.take ANALYSIS_FRAMES_COUNT)
    -- line 305: cap.release() precedes the decision phase
    if exnPointIs inp.exn .afterRelease then
      exnResult (exnMsg inp.exn) true true
    else
      let avg := listAvg A.scores
      -- lines 316-320: final decision
      let isReal := decide (MIN_MOTION_FRAMES ≤ A.fwm)
        && decide (CONFIDENCE_THRESHOLD ≤ A.maxC)
        && decide (CONFIDENCE_THRESHOLD * (2/5) ≤ avg)
      -- lines 345-351: encode best frame only on a real decision
      let image := if isReal then
          match A.best with
          | some i => if inp.encodeOk then some i else none
          | none => none
        else none
      ⟨isReal, A.maxC, image,
        .summary ⟨A.scores.length, A.fwm, A.maxC, avg, listMedian A.scores⟩,
        true, true⟩

/-! ### Reference blend (fog_node.py lines 222-226)

`reference = reference_frames[0]; for rf in reference_frames[1:]:
reference = addWeighted(reference, 0.5, rf, 0.5, 0)`.  The blend acts
pixelwise and linearly, so one pixel (a rational) represents a frame. -/

def blendFold : ℚ → List ℚ → ℚ
  | x, [] => x
  | x, b :: l => blendFold ((x + b) / 2) l

/-- Arithmetic mean of a nonempty frame list (what the spec says the
blend computes). -/
def listMean (l : List ℚ) : ℚ := l.sum / l.length

/-! ### Motion streak counter (fog_node.py lines 48, 152-158, 177-180)

`motion_frame_count` is a Python int, modelled as `ℤ` so that
non-negativity is a real statement.  The counter only ever sees a
Boolean per-frame judgment or a reset. -/

inductive DetOp where
  | judge : Bool → DetOp
  | reset : DetOp

/-- Effect of one operation on `motion_frame_count`: lines 153-156
(`+= 1` / `max(0, c - 1)`) and line 179 (reset to 0). -/
def applyOp (c : ℤ) : DetOp → ℤ
  | .judge true => c + 1
  | .judge false => max 0 (c - 1)
  | .reset => 0

/-- Counter after a sequence of operations starting from `c`
(initial value 0, line 48). -/
def runOps (c : ℤ) (ops : List DetOp) : ℤ := ops.foldl applyOp c

/-! ### Trigger loop (fog_node.py lines 440-510)

One iteration of the main loop, given the serial line read, the time `t`
of the cooldown check (line 450), the burst-verification outcome
(decision and optional image) and the time `t2` at which the cooldown is
set (line 489).  Returns the new loop state and whether verification
ran. -/

structure LoopState where
  last_state : String
  detector_cooldown : ℚ
deriving DecidableEq

def loopStep (st : LoopState) (line : String) (t : ℚ)
    (vr : Bool × Option ℕ) (t2 : ℚ) : LoopState × Bool :=
  if line = "ON" ∧ st.last_state ≠ "ON" then
    if t < st.detector_cooldown then
      -- lines 450-454: in cooldown, ignore but record the line state
      ({ st with last_state := "ON" }, false)
    else
      -- lines 459-505: verification runs; the cooldown is set (line 489)
      -- only inside `if is_real:` and then `if image_b64:`
      if vr.1 && vr.2.isSome then
        ({ last_state := "ON", detector_cooldown := t2 + COOLDOWN_PERIOD }, true)
      else
        ({ st with last_state := "ON" }, true)
  else if line = "OFF" then
    -- lines 507-510
    ({ st with last_state := "OFF" }, false)
  else
    (st, false)

/-! ### Concrete runs used as witnesses and counterexamples -/

/-- A run in which the camera opens, all 5 reference reads succeed and
three analysis frames each show one 40000 px² contour with mean
difference 100. -/
def c1Input : VerifyInput :=
  { cv2Available := true
    opens := true
    refReadOk := [true, true, true, true, true]
    analysisFrames := [some ⟨[40000], 100⟩, some ⟨[40000], 100⟩, some ⟨[40000], 100⟩]
    exn := none
    encodeOk := true }

/-- A run in which the camera does not open. -/
def c3Input : VerifyInput :=
  { cv2Available := true
    opens := false
    refReadOk := []
    analysisFrames := []
    exn := none
    encodeOk := true }

/-- A run in which an exception fires during the analysis phase, after
the camera was opened and 5 reference frames were captured. -/
def c5Input : VerifyInput :=
  { cv2Available := true
    opens := true
    refReadOk := [true, true, true, true, true]
    analysisFrames := []
    exn := some (.duringAnalysis, "resize failed")
    encodeOk := true }

/-- A run in which an exception fires during the reference phase. -/
def c10Input : VerifyInput :=
  { cv2Available := true
    opens := true
    refReadOk := [true, true, true, true, true]
    analysisFrames := []
    exn := some (.duringRef, "read failed")
    encodeOk := true }

/-! ### Claim-side aggregate definitions

These restate the spec's aggregates (count above threshold, maximum,
average) directly on a score list, to be compared with the values the
analysis loop accumulates. -/

/-- Scores the analysis loop produces from a list of read outcomes:
failed reads are skipped, successful ones are scored. -/
def scoresOf (l : List (Option FrameObs)) : List ℚ :=
  (l.filterMap id).map (fun o => burstFrameScore o.areas o.meanDiff)

/-- The per-frame score list `S` of one verification run. -/
def scoreList (inp : VerifyInput) : List ℚ :=
  scoresOf (inp.analysisFrames.take ANALYSIS_FRAMES_COUNT)

/-- `|{s ∈ S : s ≥ 0.6}|`. -/
def countAbove (S : List ℚ) : ℕ :=
  (S.filter (fun s => decide (CONFIDENCE_THRESHOLD ≤ s))).length

/-- Maximum of a score list (0 for the empty list). -/
def listMaxD : List ℚ → ℚ
  | [] => 0
  | a :: l => l.foldl max a

/-! ### Helper lemmas about the analysis loop -/

theorem ite_lt_eq_max (a b : ℚ) : (if a < b then b else a) = max a b := by
  by_cases h : a < b
  · simp [h, max_eq_right h.le]
  · simp [h, max_eq_left (not_lt.mp h)]

theorem runAnalysis_scores (l : List (Option FrameObs)) :
    ∀ (i : ℕ) (acc : AnalysisAcc),
    (runAnalysis i acc l).scores = acc.scores ++ scoresOf l := by
  induction l with
  | nil => intro i acc; simp [runAnalysis, scoresOf]
  | cons obs rest ih =>
    intro i acc
    cases obs with
    | none => rw [runAnalysis, ih]; simp [analysisStep, scoresOf]
    | some o => rw [runAnalysis, ih]; simp [analysisStep, scoresOf]

theorem runAnalysis_fwm (l : List (Option FrameObs)) :
    ∀ (i : ℕ) (acc : AnalysisAcc),
    (runAnalysis i acc l).fwm = acc.fwm + countAbove (scoresOf l) := by
  induction l with
  | nil => intro i acc; simp [runAnalysis, scoresOf, countAbove]
  | cons obs rest ih =>
    intro i acc
    cases obs with
    | none => rw [runAnalysis, ih]; simp [analysisStep, scoresOf]
    | some o =>
      rw [runAnalysis, ih]
      by_cases h : CONFIDENCE_THRESHOLD ≤ burstFrameScore o.areas o.meanDiff
      · simp [analysisStep, scoresOf, countAbove, h]; omega
      · simp [analysisStep, scoresOf, countAbove, h]

theorem runAnalysis_maxC (l : List (Option FrameObs)) :
    ∀ (i : ℕ) (acc : AnalysisAcc),
    (runAnalysis i acc l).maxC = (scoresOf l).foldl max acc.maxC := by
  induction l with
  | nil => intro i acc; simp [runAnalysis, scoresOf]
  | cons obs rest ih =>
    intro i acc
    cases obs with
    | none => rw [runAnalysis, ih]; simp [analysisStep, scoresOf]
    | some o =>
      rw [runAnalysis, ih]
      simp [analysisStep, scoresOf, ite_lt_eq_max]

theorem foldl_max_from_zero (S : List ℚ) (hne : S ≠ []) (h : ∀ s ∈ S, 0 ≤ s) :
    S.foldl max 0 = listMaxD S := by
  cases S with
  | nil => exact absurd rfl hne
  | cons a S' =>
    have ha : max 0 a = a := max_eq_right (h a (by simp))
    simp only [listMaxD, List.foldl_cons, ha]

theorem significantAreas_mem {areas : List ℚ} {a : ℚ}
    (h : a ∈ significantAreas areas) :
    MIN_CONTOUR_AREA < a ∧ a < MAX_CONTOUR_AREA := by
  simp only [significantAreas, List.mem_filter, decide_eq_true_eq] at h
  exact h.2

theorem significantAreas_sum_nonneg (areas : List ℚ) :
    0 ≤ (significantAreas areas).sum := by
  apply List.sum_nonneg
  intro a ha
  have := (significantAreas_mem ha).1
  simp only [MIN_CONTOUR_AREA] at this
  linarith

theorem burstFrameScore_nonneg (areas : List ℚ) (d : ℚ) (hd : 0 ≤ d) :
    0 ≤ burstFrameScore areas d := by
  unfold burstFrameScore
  split
  · have h1 : (0 : ℚ) ≤ min ((significantAreas areas).sum / 50000) 1 :=
      le_min (div_nonneg (significantAreas_sum_nonneg areas) (by norm_num)) (by norm_num)
    have h2 : (0 : ℚ) ≤ min (d / 50) 1 :=
      le_min (div_nonneg hd (by norm_num)) (by norm_num)
    have h3 : (0 : ℚ) ≤ min (((significantAreas areas).length : ℚ) / 3) 1 :=
      le_min (div_nonneg (by positivity) (by norm_num)) (by norm_num)
    have m1 := mul_nonneg h1 (show (0:ℚ) ≤ 2/5 by norm_num)
    have m2 := mul_nonneg h2 (show (0:ℚ) ≤ 3/10 by norm_num)
    have m3 := mul_nonneg h3 (show (0:ℚ) ≤ 3/10 by norm_num)
    linarith
  · exact le_refl 0

theorem scoreList_nonneg (inp : VerifyInput)
    (hd : ∀ o ∈ (inp.analysisFrames.take ANALYSIS_FRAMES_COUNT).filterMap id,
      0 ≤ o.meanDiff) :
    ∀ s ∈ scoreList inp, 0 ≤ s := by
  intro s hs
  simp only [scoreList, scoresOf, List.mem_map] at hs
  obtain ⟨o, ho, rfl⟩ := hs
  exact burstFrameScore_nonneg _ _ (hd o ho)

theorem verifyModel_is_real_normal (inp : VerifyInput)
    (hcv : inp.cv2Available = true) (hop : inp.opens = true)
    (hexn : inp.exn = none) (href : 2 ≤ refCaptured inp) :
    (verifyModel inp).is_real =
      (decide (MIN_MOTION_FRAMES ≤
          (runAnalysis 0 analysisInit
            (inp.analysisFrames.take ANALYSIS_FRAMES_COUNT)).fwm)
        && decide (CONFIDENCE_THRESHOLD ≤
          (runAnalysis 0 analysisInit
            (inp.analysisFrames.take ANALYSIS_FRAMES_COUNT)).maxC)
        && decide (CONFIDENCE_THRESHOLD * (2/5) ≤
          listAvg (runAnalysis 0 analysisInit
            (inp.analysisFrames.take ANALYSIS_FRAMES_COUNT)).scores)) := by
  simp [verifyModel, hcv, hop, hexn, exnPointIs, not_lt.mpr href]

/-- Claim C1: a burst-verification run that completes its analysis phase with
per-frame score list `S` returns the verdict real exactly when the count
of scores `≥ 0.6` is at least 3, the maximum is `≥ 0.6` and the average
is `≥ 0.4 × 0.6`. -/
theorem burst_verdict_iff (inp : VerifyInput)
    (hcv : inp.cv2Available = true) (hop : inp.opens = true)
    (hexn : inp.exn = none) (href : 2 ≤ refCaptured inp)
    (hne : scoreList inp ≠ [])
    (hd : ∀ o ∈ (inp.analysisFrames.take ANALYSIS_FRAMES_COUNT).filterMap id,
      0 ≤ o.meanDiff) :
    (verifyModel inp).is_real = true ↔
      (3 ≤ countAbove (scoreList inp)
        ∧ (3/5 : ℚ) ≤ listMaxD (scoreList inp)
        ∧ (2/5 : ℚ) * (3/5) ≤ listAvg (scoreList inp)) := by
  have hf := runAnalysis_fwm (inp.analysisFrames.take ANALYSIS_FRAMES_COUNT) 0 analysisInit
  have hm := runAnalysis_maxC (inp.analysisFrames.take ANALYSIS_FRAMES_COUNT) 0 analysisInit
  have hs := runAnalysis_scores (inp.analysisFrames.take ANALYSIS_FRAMES_COUNT) 0 analysisInit
  rw [verifyModel_is_real_normal inp hcv hop hexn href, hf, hm, hs]
  have hSL : scoresOf (inp.analysisFrames.take ANALYSIS_FRAMES_COUNT) = scoreList inp := rfl
  simp only [analysisInit, Nat.zero_add, List.nil_append]
  rw [hSL]
  simp only [Bool.and_eq_true, decide_eq_true_eq, MIN_MOTION_FRAMES,
    CONFIDENCE_THRESHOLD]
  rw [foldl_max_from_zero (scoreList inp) hne (scoreList_nonneg inp hd)]
  constructor
  · rintro ⟨⟨h1, h2⟩, h3⟩
    refine ⟨h1, h2, ?_⟩
    calc (2/5 : ℚ) * (3/5) = 3/5 * (2/5) := by ring
    _ ≤ _ := h3
  · rintro ⟨h1, h2, h3⟩
    refine ⟨⟨h1, h2⟩, ?_⟩
    calc (3/5 : ℚ) * (2/5) = 2/5 * (3/5) := by ring
    _ ≤ _ := h3

theorem burst_verdict_iff_witness :
    (verifyModel c1Input).is_real = true ↔
      (3 ≤ countAbove (scoreList c1Input)
        ∧ (3/5 : ℚ) ≤ listMaxD (scoreList c1Input)
        ∧ (2/5 : ℚ) * (3/5) ≤ listAvg (scoreList c1Input)) :=
  burst_verdict_iff c1Input rfl rfl rfl (by decide) (by decide) (by decide)

/-- Claim C2: in continuous mode a frame is judged "motion" exactly when the
combined confidence is at least 0.6, at least one contour survives the
area filter, and the total surviving area strictly exceeds 500 px². -/
theorem frame_motion_gates_iff (bgAreas : List ℚ) (nf : ℕ) (d : ℚ) :
    hasMotion bgAreas nf d = true ↔
      ((3/5 : ℚ) ≤ continuousConfidence bgAreas nf d
        ∧ 0 < (significantAreas bgAreas).length
        ∧ (500 : ℚ) < (significantAreas bgAreas).sum) := by
  simp [hasMotion, CONFIDENCE_THRESHOLD, MIN_CONTOUR_AREA, and_assoc]

/-- Claim C3: when the camera cannot be opened, or fewer than 2 reference
frames are captured, burst verification fails open — it returns decision
real with confidence 1.0, no image, and a human-readable diagnostic
string in place of a decision score. -/
theorem verify_fail_open (inp : VerifyInput)
    (hcv : inp.cv2Available = true) (hexn : inp.exn = none)
    (h : inp.opens = false ∨ refCaptured inp < 2) :
    (verifyModel inp).is_real = true ∧ (verifyModel inp).confidence = 1
      ∧ (verifyModel inp).image = none
      ∧ ∃ s, (verifyModel inp).info = DebugInfo.diagnostic s := by
  rcases h with h | h
  · simp [verifyModel, hcv, hexn, exnPointIs, h]
  · by_cases hop : inp.opens = true
    · simp [verifyModel, hcv, hexn, exnPointIs, hop, h]
    · simp only [Bool.not_eq_true] at hop
      simp [verifyModel, hcv, hexn, exnPointIs, hop]

theorem verify_fail_open_witness :
    (verifyModel c3Input).is_real = true ∧ (verifyModel c3Input).confidence = 1
      ∧ (verifyModel c3Input).image = none
      ∧ ∃ s, (verifyModel c3Input).info = DebugInfo.diagnostic s :=
  verify_fail_open c3Input rfl rfl (Or.inl rfl)

/-- Claim C5 (code bug): an exception raised between the successful
`cv2.VideoCapture` open and the `cap.release()` on line 305 reaches the
`except` handler (lines 355-359), which returns without releasing the
handle — so this exit path leaks the open camera, contrary to the claim
that every exit path releases it.  Evaluated at a concrete run whose
exception fires during the analysis phase. -/
theorem verify_exception_leaks_camera :
    (verifyModel c5Input).opened = true ∧ (verifyModel c5Input).released = false := by
  decide

/-- Claim C10: an unexpected exception raised after the camera phase
begins makes `verify_motion_with_camera` fail closed: it returns decision
real = false, confidence 0.0, no image and the error string — for an
exception in the reference phase, in the analysis phase, or after the
release during the decision phase. -/
theorem verify_exception_fail_closed (inp : VerifyInput) (m : String)
    (hcv : inp.cv2Available = true) (hop : inp.opens = true) :
    (inp.exn = some (.duringRef, m) →
      (verifyModel inp).is_real = false ∧ (verifyModel inp).confidence = 0
        ∧ (verifyModel inp).image = none
        ∧ (verifyModel inp).info = DebugInfo.errorMsg m)
    ∧ (2 ≤ refCaptured inp → inp.exn = some (.duringAnalysis, m) →
      (verifyModel inp).is_real = false ∧ (verifyModel inp).confidence = 0
        ∧ (verifyModel inp).image = none
        ∧ (verifyModel inp).info = DebugInfo.errorMsg m)
    ∧ (2 ≤ refCaptured inp → inp.exn = some (.afterRelease, m) →
      (verifyModel inp).is_real = false ∧ (verifyModel inp).confidence = 0
        ∧ (verifyModel inp).image = none
        ∧ (verifyModel inp).info = DebugInfo.errorMsg m) := by
  refine ⟨fun h => ?_, fun href h => ?_, fun href h => ?_⟩
  · simp [verifyModel, hcv, hop, h, exnPointIs, exnMsg, exnResult]
  · simp [verifyModel, hcv, hop, h, exnPointIs, exnMsg, exnResult, not_lt.mpr href]
  · simp [verifyModel, hcv, hop, h, exnPointIs, exnMsg, exnResult, not_lt.mpr href]

theorem verify_exception_fail_closed_witness :
    (verifyModel c10Input).is_real = false ∧ (verifyModel c10Input).confidence = 0
      ∧ (verifyModel c10Input).image = none
      ∧ (verifyModel c10Input).info = DebugInfo.errorMsg "read failed" :=
  (verify_exception_fail_closed c10Input "read failed" rfl rfl).1 rfl

/-- Claim C4 counterexample: a rising edge outside cooldown whose burst
verification resolves real = true but captures no image.  Verification
runs (second component true), the decision is real, yet the cooldown
timestamp is left at its old value 0 instead of now + 5 — line 489 sits
inside `if image_b64:`, so a real decision without an image does not set
the cooldown. -/
theorem cooldown_not_set_on_imageless_real :
    (loopStep ⟨"OFF", 0⟩ "ON" 10 (true, none) 12).2 = true
      ∧ (loopStep ⟨"OFF", 0⟩ "ON" 10 (true, none) 12).1.detector_cooldown = 0
      ∧ (0 : ℚ) ≠ 12 + COOLDOWN_PERIOD :=
  ⟨rfl, rfl, by norm_num [COOLDOWN_PERIOD]⟩

/-- Claim C4 amended: the cooldown timestamp is set to now + 5 exactly
when a rising edge outside cooldown resolves with real = true AND an
image was captured; on every other iteration (including a real = true
decision without an image) it is left unchanged. -/
theorem cooldown_update_characterization (st : LoopState) (line : String)
    (t : ℚ) (vr : Bool × Option ℕ) (t2 : ℚ) :
    (loopStep st line t vr t2).1.detector_cooldown =
      if (line = "ON" ∧ st.last_state ≠ "ON") ∧ st.detector_cooldown ≤ t
          ∧ (vr.1 && vr.2.isSome) = true then
        t2 + COOLDOWN_PERIOD
      else st.detector_cooldown := by
  by_cases h1 : line = "ON" ∧ st.last_state ≠ "ON"
  · by_cases h2 : t < st.detector_cooldown
    · simp [loopStep, h1, h2, not_le.mpr h2]
    · by_cases h3 : (vr.1 && vr.2.isSome) = true
      · simp [loopStep, h1, h2, h3, not_lt.mp h2]
      · simp [loopStep, h1, h2, h3]
  · by_cases h4 : line = "OFF"
    · simp [loopStep, h1, h4]
    · simp [loopStep, h1, h4]

/-- Claim C9: a rising edge arriving strictly before cooldown expiry is
ignored but still records the line state as "ON"; a rising edge arriving
at or after the expiry instant is accepted and verification starts. -/
theorem trigger_cooldown_edge (st : LoopState) (line : String) (t : ℚ)
    (vr : Bool × Option ℕ) (t2 : ℚ)
    (hline : line = "ON") (hprev : st.last_state ≠ "ON") :
    (t < st.detector_cooldown →
      loopStep st line t vr t2 = ({ st with last_state := "ON" }, false))
    ∧ (st.detector_cooldown ≤ t →
      (loopStep st line t vr t2).2 = true
        ∧ (loopStep st line t vr t2).1.last_state = "ON") := by
  constructor
  · intro h
    simp [loopStep, hline, hprev, h]
  · intro h
    by_cases h3 : (vr.1 && vr.2.isSome) = true
    · simp [loopStep, hline, hprev, not_lt.mpr h, h3]
    · simp [loopStep, hline, hprev, not_lt.mpr h, h3]

theorem trigger_cooldown_edge_witness :
    (loopStep ⟨"OFF", 7⟩ "ON" 5 (false, none) 9
        = ({ last_state := "ON", detector_cooldown := 7 }, false))
    ∧ ((loopStep ⟨"OFF", 5⟩ "ON" 5 (false, none) 9).2 = true
        ∧ (loopStep ⟨"OFF", 5⟩ "ON" 5 (false, none) 9).1.last_state = "ON") :=
  ⟨(trigger_cooldown_edge ⟨"OFF", 7⟩ "ON" 5 (false, none) 9 rfl
      (by decide)).1 (by norm_num),
   (trigger_cooldown_edge ⟨"OFF", 5⟩ "ON" 5 (false, none) 9 rfl
      (by decide)).2 (le_refl 5)⟩

theorem contourScore_bounds (n : ℕ) : 0 ≤ contourScore n ∧ contourScore n ≤ 1 :=
  ⟨le_min (by positivity) (by norm_num), min_le_right _ _⟩

theorem areaScore_bounds (t : ℚ) : 0 ≤ areaScore t ∧ areaScore t ≤ 1 := by
  unfold areaScore
  split
  · exact ⟨le_min (by positivity) (by norm_num), min_le_right _ _⟩
  · exact ⟨le_refl 0, by norm_num⟩

theorem consistencyScore_bounds (nf nb : ℕ) :
    0 ≤ consistencyScore nf nb ∧ consistencyScore nf nb ≤ 1 :=
  ⟨le_min (by positivity) (by norm_num), min_le_right _ _⟩

theorem diffScore_bounds (d : ℚ) (hd : 0 ≤ d) : 0 ≤ diffScore d ∧ diffScore d ≤ 1 :=
  ⟨le_min (by positivity) (by norm_num), min_le_right _ _⟩

theorem continuousConfidence_bounds (bgAreas : List ℚ) (nf : ℕ) (d : ℚ)
    (hd : 0 ≤ d) :
    0 ≤ continuousConfidence bgAreas nf d ∧ continuousConfidence bgAreas nf d ≤ 1 := by
  obtain ⟨c0, c1⟩ := contourScore_bounds (significantAreas bgAreas).length
  obtain ⟨a0, a1⟩ := areaScore_bounds (significantAreas bgAreas).sum
  obtain ⟨s0, s1⟩ := consistencyScore_bounds nf bgAreas.length
  obtain ⟨d0, d1⟩ := diffScore_bounds d hd
  unfold continuousConfidence
  constructor <;> nlinarith

theorem burstFrameScore_le_one (areas : List ℚ) (d : ℚ) :
    burstFrameScore areas d ≤ 1 := by
  unfold burstFrameScore
  split
  · have h1 : min ((significantAreas areas).sum / 50000) 1 ≤ 1 := min_le_right _ _
    have h2 : min (d / 50) 1 ≤ 1 := min_le_right _ _
    have h3 : min (((significantAreas areas).length : ℚ) / 3) 1 ≤ 1 := min_le_right _ _
    have g1 : (0:ℚ) ≤ min ((significantAreas areas).sum / 50000) 1 :=
      le_min (div_nonneg (significantAreas_sum_nonneg areas) (by norm_num)) (by norm_num)
    have g2 : (0:ℚ) ≤ min (((significantAreas areas).length : ℚ) / 3) 1 :=
      le_min (by positivity) (by norm_num)
    nlinarith [min_le_right (d / 50) (1:ℚ)]
  · norm_num

/-- Claim C6: every score factor is clamped to [0,1], and the combined
confidence — the 0.30/0.25/0.25/0.20 weighted sum in continuous mode and
the 0.4/0.3/0.3 weighted sum in burst mode — also lies in [0,1], for
arbitrary contour counts, contour areas and (nonnegative, as produced by
`absdiff`) mean pixel differences. -/
theorem confidence_factors_clamped (nsig nf nb : ℕ) (total d : ℚ)
    (bgAreas areas : List ℚ) (hd : 0 ≤ d) :
    (0 ≤ contourScore nsig ∧ contourScore nsig ≤ 1)
    ∧ (0 ≤ areaScore total ∧ areaScore total ≤ 1)
    ∧ (0 ≤ consistencyScore nf nb ∧ consistencyScore nf nb ≤ 1)
    ∧ (0 ≤ diffScore d ∧ diffScore d ≤ 1)
    ∧ (0 ≤ continuousConfidence bgAreas nf d ∧ continuousConfidence bgAreas nf d ≤ 1)
    ∧ (0 ≤ burstFrameScore areas d ∧ burstFrameScore areas d ≤ 1) :=
  ⟨contourScore_bounds nsig, areaScore_bounds total, consistencyScore_bounds nf nb,
    diffScore_bounds d hd, continuousConfidence_bounds bgAreas nf d hd,
    burstFrameScore_nonneg areas d hd, burstFrameScore_le_one areas d⟩

theorem confidence_factors_clamped_witness :
    (0 ≤ contourScore 7 ∧ contourScore 7 ≤ 1)
    ∧ (0 ≤ areaScore 1000000 ∧ areaScore 1000000 ≤ 1)
    ∧ (0 ≤ consistencyScore 9 0 ∧ consistencyScore 9 0 ≤ 1)
    ∧ (0 ≤ diffScore 500 ∧ diffScore 500 ≤ 1)
    ∧ (0 ≤ continuousConfidence [1000, 300000] 9 500
        ∧ continuousConfidence [1000, 300000] 9 500 ≤ 1)
    ∧ (0 ≤ burstFrameScore [150000] 500 ∧ burstFrameScore [150000] 500 ≤ 1) :=
  confidence_factors_clamped 7 9 0 1000000 500 [1000, 300000] [150000] (by norm_num)

/-- Claim C7 counterexample: for the K = 3 frame list [0, 0, 1] the
sequential 0.5/0.5 blend (seeded with the first frame and folded over the
rest, as in lines 223-226) yields 1/2, while the arithmetic mean with
equal weight 1/K per frame is 1/3 — the frames do not contribute equal
weight. -/
theorem blend_differs_from_mean :
    blendFold 0 [0, 1] = 1/2 ∧ listMean [0, 0, 1] = 1/3
      ∧ blendFold 0 [0, 1] ≠ listMean [0, 0, 1] := by
  refine ⟨?_, ?_, ?_⟩ <;> norm_num [blendFold, listMean]

/-- Claim C7 amended: the sequential pairwise 0.5/0.5 blend of the first
frame `x` with the remaining frames `l` equals the weighted sum in which
`x` has weight `1 / 2 ^ l.length` and the i-th remaining frame has weight
`1 / 2 ^ (l.length - i)` — so later frames carry exponentially more
weight; it equals the arithmetic mean of all K frames only for K = 2. -/
theorem blendFold_weighted_sum (x : ℚ) (l : List ℚ) :
    blendFold x l = x / 2 ^ l.length
      + ∑ i ∈ Finset.range l.length, l.getD i 0 / 2 ^ (l.length - i) := by
  induction l generalizing x with
  | nil => simp [blendFold]
  | cons b l ih =>
    rw [blendFold, ih]
    simp only [List.length_cons]
    rw [Finset.sum_range_succ']
    simp only [List.getD_cons_succ, List.getD_cons_zero, Nat.succ_sub_succ,
      Nat.sub_zero, pow_succ]
    have h2 : (2:ℚ) ^ l.length ≠ 0 := by positivity
    field_simp
    ring

theorem applyOp_nonneg (c : ℤ) (op : DetOp) (hc : 0 ≤ c) : 0 ≤ applyOp c op := by
  cases op with
  | judge b =>
    cases b
    · exact le_max_left 0 (c - 1)
    · simpa [applyOp] using by omega
  | reset => exact le_refl 0

theorem runOps_nonneg : ∀ (ops : List DetOp) (c : ℤ), 0 ≤ c → 0 ≤ runOps c ops := by
  intro ops
  induction ops with
  | nil => intro c hc; simpa [runOps] using hc
  | cons op rest ih =>
    intro c hc
    have : runOps c (op :: rest) = runOps (applyOp c op) rest := rfl
    rw [this]
    exact ih (applyOp c op) (applyOp_nonneg c op hc)

/-- Claim C8: starting from any nonnegative value (initially 0), the
motion streak counter stays nonnegative under every sequence of
operations; a positive judgment increments it by exactly 1, any other
judgment sets it to `max 0 (c - 1)` (a decrement of at most 1, floored
at 0), and every single operation — including the post-event reset —
preserves nonnegativity. -/
theorem motion_streak_invariant (c : ℤ) (hc : 0 ≤ c) (op : DetOp)
    (ops : List DetOp) :
    0 ≤ runOps c ops
    ∧ applyOp c (.judge true) = c + 1
    ∧ applyOp c (.judge false) = max 0 (c - 1)
    ∧ 0 ≤ applyOp c op :=
  ⟨runOps_nonneg ops c hc, rfl, rfl, applyOp_nonneg c op hc⟩

theorem motion_streak_invariant_witness :
    0 ≤ runOps 2 [.judge true, .reset, .judge false, .judge false]
    ∧ applyOp 2 (.judge true) = 2 + 1
    ∧ applyOp 2 (.judge false) = max 0 (2 - 1)
    ∧ 0 ≤ applyOp 2 .reset :=
  motion_streak_invariant 2 (by decide) .reset
    [.judge true, .reset, .judge false, .judge false]

end FogNode
